import Mathlib

/-!
Shallow embedding of the paint-clone webapp core
(src/webapp/src/components/paint.rs): the Color model with hex parsing,
the Shape variants and their canvas rendering, the two drawing tools,
the undo/redo stacks and the Yew component's update handler.

Rust `f64` canvas coordinates only ever hold integer pixel offsets and
differences of them here, so they are modelled exactly as rationals.
Rust `u8` components are modelled as `Nat` with the parser enforcing the
0..=255 range exactly as `u8::from_str_radix` does; strings reaching the
color parser are modelled by their UTF-8 bytes, since Rust measures and
slices them in bytes.  Rendering is
modelled as the trace of CanvasRenderingContext2d calls each operation
issues, on the main surface and on the tooltip (preview) surface.
-/

/-- An angle argument to CanvasRenderingContext2d::arc.  The source only
ever passes constant expressions built from rational literals and
`std::f64::consts::PI`, so an angle is represented exactly as
`lit + piCoeff * π`. -/
structure Angle where
  lit : ℚ
  piCoeff : ℚ
deriving DecidableEq, Repr

/-- Value of a single hexadecimal digit byte, as `from_str_radix`
accepts them (it works on the string's bytes: 48–57 are `0`–`9`,
97–102 are `a`–`f`, 65–70 are `A`–`F`). -/
def hexDigitVal (b : Nat) : Option Nat :=
  if 48 ≤ b ∧ b ≤ 57 then some (b - 48)
  else if 97 ≤ b ∧ b ≤ 102 then some (b - 87)
  else if 65 ≤ b ∧ b ≤ 70 then some (b - 55)
  else none

/-- Accumulate hexadecimal digit bytes left to right; `none` once any
byte is not a hex digit. -/
def parseHexNat : Option Nat → List Nat → Option Nat
  | none, _ => none
  | some acc, [] => some acc
  | some acc, b :: bs =>
    match hexDigitVal b with
    | none => none
    | some d => parseHexNat (some (acc * 16 + d)) bs

/-- Model of `u8::from_str_radix(s, 16)` over the string's bytes: an
optional leading `+` (byte 43), then at least one hex digit, with the
value required to fit in a `u8` (Rust's per-step checked arithmetic
fails exactly when the final value exceeds 255).  A leading `-` gets no
sign treatment for an unsigned type: it is read as a digit and fails. -/
def fromStrRadix16U8 (s : List Nat) : Option Nat :=
  match s with
  | [] => none
  | c :: body =>
    if c = 43 then
      if body.isEmpty then none
      else (parseHexNat (some 0) body).bind fun v => if v ≤ 255 then some v else none
    else (parseHexNat (some 0) (c :: body)).bind fun v => if v ≤ 255 then some v else none

/-- Model of the `Color` struct: `u8` components plus the optional
normalized alpha.  The alpha `f64` only ever holds `k / 255` or the
literal `0.5`, both exactly representable; it is modelled as `ℚ`. -/
structure Color where
  r : Nat
  g : Nat
  b : Nat
  a : Option ℚ
deriving DecidableEq, Repr

/-- Digits of the fractional part of `num / den` by long division,
bounded by fuel.  For the denominators the program produces whose
expansion terminates (such as 0.5) this matches Rust's `{}` formatting
of the corresponding `f64` exactly. -/
def decimalFrac (den : Nat) : Nat → Nat → String
  | _, 0 => ""
  | num, fuel + 1 =>
    if num = 0 then ""
    else toString (num * 10 / den) ++ decimalFrac den (num * 10 % den) fuel

/-- Decimal rendering of a rational, used for the alpha channel in
`Color::to_rgb_str` (Rust formats the `f64` with `{}`). -/
def ratToString (q : ℚ) : String :=
  let sign := if q.num < 0 then "-" else ""
  let n := q.num.natAbs
  let whole := n / q.den
  let frac := n % q.den
  if frac = 0 then sign ++ toString whole
  else sign ++ toString whole ++ "." ++ decimalFrac q.den frac 32

/-- Model of `Color::to_rgb_str`. -/
def Color.to_rgb_str (c : Color) : String :=
  match c.a with
  | some alpha =>
    "rgba(" ++ toString c.r ++ ", " ++ toString c.g ++ ", " ++ toString c.b ++ ", "
      ++ ratToString alpha ++ ")"
  | none =>
    "rgb(" ++ toString c.r ++ ", " ++ toString c.g ++ ", " ++ toString c.b ++ ")"

/-- UTF-8 bytes of one character, as `str::as_bytes` exposes them. -/
def utf8Bytes (c : Char) : List Nat :=
  let n := c.toNat
  if n < 128 then [n]
  else if n < 2048 then [192 + n / 64, 128 + n % 64]
  else if n < 65536 then [224 + n / 4096, 128 + n / 64 % 64, 128 + n % 64]
  else [240 + n / 262144, 128 + n / 4096 % 64, 128 + n / 64 % 64, 128 + n % 64]

/-- The UTF-8 byte sequence of a string: Rust measures, indexes and
slices `str` content in these bytes. -/
def strBytes (s : String) : List Nat :=
  (s.toList.map utf8Bytes).flatten

/-- Model of `str::is_char_boundary`: offset 0 and the total length are
boundaries, and an interior offset is one exactly when its byte is not
a UTF-8 continuation byte (128–191). -/
def isCharBoundary (hex : List Nat) (i : Nat) : Bool :=
  if i = 0 then true
  else
    match hex[i]? with
    | none => i = hex.length
    | some b => b < 128 || 192 ≤ b

/-- Outcome of `Color::from_hex_str`: the returned `Result`, or the
panic that byte-range indexing (`&hex[0..2]`, …) raises when a slice
offset falls inside a multi-byte character. -/
inductive HexParse where
  | ok (c : Color)
  | err (e : String)
  | panicked
deriving DecidableEq, Repr

/-- Model of `Color::from_hex_str` over the input string's UTF-8 bytes
(Rust measures the length and cuts the 2-digit groups in bytes).
`trim_start_matches('#')` strips every leading `#` character, i.e.
every leading byte 35.  Cutting a group panics when a slice offset
falls inside a multi-byte character; the checks below are the interior
offsets 2, 4 and 6 in slicing order (offset 0 is always a boundary, and
so is an offset equal to the length).  Note the alpha group is parsed
with `.ok()`: a failed alpha parse is swallowed into `None` rather than
reported. -/
def from_hex_str (input : List Nat) : HexParse :=
  let hex := input.dropWhile (fun b => b = 35)
  if hex.length ≠ 6 ∧ hex.length ≠ 8 then .err "Invalid hex color format"
  else if isCharBoundary hex 2 then
    match fromStrRadix16U8 (hex.take 2) with
    | none => .err "Invalid red component"
    | some r =>
      if isCharBoundary hex 4 then
        match fromStrRadix16U8 ((hex.drop 2).take 2) with
        | none => .err "Invalid green component"
        | some g =>
          if isCharBoundary hex 6 then
            match fromStrRadix16U8 ((hex.drop 4).take 2) with
            | none => .err "Invalid blue component"
            | some b =>
              let alpha : Option Nat :=
                if hex.length = 8 then fromStrRadix16U8 ((hex.drop 6).take 2) else none
              .ok { r := r, g := g, b := b, a := alpha.map fun x => (x : ℚ) / 255 }
          else .panicked
      else .panicked
  else .panicked

/-- One call on a CanvasRenderingContext2d, recorded in a render trace. -/
inductive CanvasOp where
  | beginPath
  | arc (x y radius : ℚ) (startAngle endAngle : Angle)
  | setFillStyle (css : String)
  | fill
  | fillRect (x y w h : ℚ)
  | clearRect (x y w h : ℚ)
deriving DecidableEq, Repr

/-- Model of the free function `draw_at_position`: begin a path, trace an
arc of hard-coded radius 5.0 from angle 1.0 to 2π, set the fill style
from the color, fill. -/
def draw_at_position (x y : ℚ) (color : Color) : List CanvasOp :=
  [.beginPath, .arc x y 5 ⟨1, 0⟩ ⟨0, 2⟩, .setFillStyle color.to_rgb_str, .fill]

/-- Model of the free function `draw_rect`: set the fill style, then
`fill_rect(x1, y1, x2 - x1, y2 - y1)`. -/
def draw_rect (x1 y1 x2 y2 : ℚ) (color : Color) : List CanvasOp :=
  [.setFillStyle color.to_rgb_str, .fillRect x1 y1 (x2 - x1) (y2 - y1)]

/-- Model of the free function `clear_canvas`. -/
def clear_canvas (w h : ℚ) : List CanvasOp :=
  [.clearRect 0 0 w h]

/-- The two shape structs (`Circle`, `Rect`) behind the `AbstractShape`
trait, as a closed sum. -/
inductive Shape where
  | circle (x y r : ℚ) (color : Color)
  | rect (x1 y1 x2 y2 : ℚ) (color : Color)
deriving DecidableEq, Repr

/-- The `AbstractShape::draw` implementations: a `Circle` delegates to
`draw_at_position` (which ignores the stored radius), a `Rect` to
`draw_rect`. -/
def Shape.draw : Shape → List CanvasOp
  | .circle x y _ color => draw_at_position x y color
  | .rect x1 y1 x2 y2 color => draw_rect x1 y1 x2 y2 color

/-- The two tool structs (`BrushTool`, `RectTool`) behind the
`DrawingTool` trait, as a closed sum carrying each tool's fields. -/
inductive Tool where
  | brush (size : ℚ) (color : Color)
  | rectTool (x y : ℚ) (color : Color) (tooltip_color : Color)
deriving DecidableEq, Repr

/-- Result of one `DrawingTool` method call: the tool's possibly updated
state, the `drawn_objects` vector after the call, and the calls the tool
issued on the tooltip (preview) context.  Neither tool ever draws on the
main context directly. -/
structure ToolStep where
  tool : Tool
  objects : List Shape
  tooltipOps : List CanvasOp
deriving DecidableEq, Repr

/-- The `DrawingTool::draw` implementations (the pointer-move handler):
the brush pushes a circle at the event position with its size and color;
the rect tool clears the 500×500 tooltip canvas and draws the candidate
rectangle from its anchor to the event position in the tooltip color. -/
def Tool.draw : Tool → List Shape → ℚ → ℚ → ToolStep
  | .brush size color, objs, ex, ey =>
    ⟨.brush size color, objs ++ [.circle ex ey size color], []⟩
  | .rectTool x y color tc, objs, ex, ey =>
    ⟨.rectTool x y color tc, objs, clear_canvas 500 500 ++ draw_rect x y ex ey tc⟩

/-- The `DrawingTool::start_draw` implementations: the brush delegates
to `draw`; the rect tool records the event position as its anchor and
commits nothing. -/
def Tool.start_draw : Tool → List Shape → ℚ → ℚ → ToolStep
  | .brush size color, objs, ex, ey => Tool.draw (.brush size color) objs ex ey
  | .rectTool _ _ color tc, objs, ex, ey => ⟨.rectTool ex ey color tc, objs, []⟩

/-- The `DrawingTool::end_draw` implementations: the brush does nothing;
the rect tool clears the tooltip canvas and pushes one `Rect` from its
anchor to the event position in its primary color. -/
def Tool.end_draw : Tool → List Shape → ℚ → ℚ → ToolStep
  | .brush size color, objs, _, _ => ⟨.brush size color, objs, []⟩
  | .rectTool x y color tc, objs, ex, ey =>
    ⟨.rectTool x y color tc, objs ++ [.rect x y ex ey color], clear_canvas 500 500⟩

/-- The `DrawingTool::change_primary_color` implementations. -/
def Tool.change_primary_color : Tool → Color → Tool
  | .brush size _, c => .brush size c
  | .rectTool x y _ tc, c => .rectTool x y c tc

/-- Model of the `CanvasState` struct. -/
structure CanvasState where
  current_tool : Tool
  mouse_pressed : Bool
  primary_color : Color
  secondary_color : Color
  tooltip_color : Color
  drawn_objects : List Shape
  undo_stack : List Shape
deriving DecidableEq, Repr

/-- The Rust literal `0.5` (the tooltip color's alpha), as an already
normalized rational so that the kernel can evaluate its projections. -/
def halfQ : ℚ := ⟨1, 2, by decide, by decide⟩

/-- Sanity equation: `halfQ` is one half. -/
lemma halfQ_eq : halfQ = 1 / 2 := by
  rw [halfQ, Rat.mk'_eq_divInt, Rat.divInt_eq_div]; norm_num

/-- Model of `CanvasState::new`. -/
def CanvasState.new : CanvasState :=
  { current_tool := .brush 5 ⟨0, 0, 255, none⟩
    mouse_pressed := false
    primary_color := ⟨0, 0, 255, none⟩
    secondary_color := ⟨255, 255, 255, none⟩
    tooltip_color := ⟨200, 0, 255, some halfQ⟩
    drawn_objects := []
    undo_stack := [] }

/-- The component's messages.  `MouseDown`/`MouseUp`/`MouseMove` carry
the event's offset position; `ChangeColor` carries the color input's
string value. -/
inductive Msg where
  | mouseDown (ex ey : ℚ)
  | mouseUp (ex ey : ℚ)
  | mouseMove (ex ey : ℚ)
  | changeTool (t : Tool)
  | saveImage
  | clearCanvas
  | changeColor (value : String)
  | selectRectTool
  | selectBrushTool
  | undo
  | redo
deriving Repr

/-- Result of one `CanvasComponent::update` call: the new state, the
calls issued on the main canvas context and on the tooltip context, the
boolean the handler returns to Yew, and — when the handler panics (the
`expect` in `Msg::ChangeColor`) — the panic message, with execution
stopping before any mutation. -/
structure UpdateResult where
  state : CanvasState
  mainOps : List CanvasOp
  previewOps : List CanvasOp
  rerender : Bool
  panicMsg : Option String
deriving DecidableEq, Repr

/-- The repaint the handler performs after the message match (for the
arms that do not return early): fill a white rectangle over the whole
500×500 surface, then draw every shape in `drawn_objects` in insertion
order. -/
def repaintOps (s : CanvasState) : List CanvasOp :=
  draw_rect 0 0 500 500 ⟨255, 255, 255, none⟩ ++ (s.drawn_objects.map Shape.draw).flatten

/-- The body of the `Msg::Undo` arm: pop the top of `drawn_objects`
(the end of the vector) onto `undo_stack`, or do nothing when empty. -/
def undoBody (s : CanvasState) : CanvasState :=
  match s.drawn_objects.getLast? with
  | some obj =>
    { s with drawn_objects := s.drawn_objects.dropLast
             undo_stack := s.undo_stack ++ [obj] }
  | none => s

/-- The body of the `Msg::Redo` arm: pop the top of `undo_stack` back
onto `drawn_objects`, or do nothing when empty. -/
def redoBody (s : CanvasState) : CanvasState :=
  match s.undo_stack.getLast? with
  | some obj =>
    { s with undo_stack := s.undo_stack.dropLast
             drawn_objects := s.drawn_objects ++ [obj] }
  | none => s

/-- The `Vec::pop` result the `Msg::Undo` arm inspects. -/
def undoPopped (s : CanvasState) : Option Shape :=
  s.drawn_objects.getLast?

/-- The `Vec::pop` result the `Msg::Redo` arm inspects. -/
def redoPopped (s : CanvasState) : Option Shape :=
  s.undo_stack.getLast?

/-- Model of `CanvasComponent::update` on the path where both canvas
references are attached (the claims under study all concern that path;
with a reference missing the handler only logs and returns false).
Faithful to the match in the source: the `SelectRectTool`,
`SelectBrushTool` and `ChangeColor` arms return before the repaint, as
does the unguarded `MouseMove` fall-through when the mouse is not
pressed. -/
def update (s : CanvasState) (msg : Msg) : UpdateResult :=
  match msg with
  | .mouseDown ex ey =>
    let ts := s.current_tool.start_draw s.drawn_objects ex ey
    let s' := { s with mouse_pressed := true, current_tool := ts.tool,
                       drawn_objects := ts.objects }
    ⟨s', repaintOps s', ts.tooltipOps, true, none⟩
  | .mouseMove ex ey =>
    if s.mouse_pressed then
      let ts := s.current_tool.draw s.drawn_objects ex ey
      let s' := { s with current_tool := ts.tool, drawn_objects := ts.objects }
      ⟨s', repaintOps s', ts.tooltipOps, true, none⟩
    else ⟨s, [], [], false, none⟩
  | .mouseUp ex ey =>
    let ts := s.current_tool.end_draw s.drawn_objects ex ey
    let s' := { s with mouse_pressed := false, current_tool := ts.tool,
                       drawn_objects := ts.objects }
    ⟨s', repaintOps s', ts.tooltipOps, true, none⟩
  | .changeTool t =>
    let s' := { s with current_tool := t }
    ⟨s', repaintOps s', [], true, none⟩
  | .saveImage =>
    ⟨s, repaintOps s, [], true, none⟩
  | .clearCanvas =>
    let s' := { s with drawn_objects := [], undo_stack := [] }
    ⟨s', repaintOps s', [], true, none⟩
  | .changeColor v =>
    match from_hex_str (strBytes v) with
    | .err _ => ⟨s, [], [], false, some "ERROR CONVERTING COLOR"⟩
    | .panicked => ⟨s, [], [], false, some "byte index is not a char boundary"⟩
    | .ok c =>
      let s' := { s with primary_color := c,
                         current_tool := s.current_tool.change_primary_color c }
      ⟨s', [], [], false, none⟩
  | .selectRectTool =>
    ⟨{ s with current_tool := .rectTool 0 0 s.primary_color s.tooltip_color },
      [], [], false, none⟩
  | .selectBrushTool =>
    ⟨{ s with current_tool := .brush 0 s.primary_color }, [], [], false, none⟩
  | .undo =>
    let s' := undoBody s
    ⟨s', repaintOps s', [], true, none⟩
  | .redo =>
    let s' := redoBody s
    ⟨s', repaintOps s', [], true, none⟩

/-- State projection of one update step. -/
def step (s : CanvasState) (m : Msg) : CanvasState :=
  (update s m).state

/-- Folding a message sequence through the handler. -/
def run (s : CanvasState) (ms : List Msg) : CanvasState :=
  ms.foldl step s

/-- Helper: `u8::from_str_radix` rejects any group starting with byte
35, the byte of `#` (the only byte `from_hex_str` could have failed to
trim). -/
lemma fromStrRadix16U8_hash (bs : List Nat) :
    fromStrRadix16U8 (35 :: bs) = none := rfl

/-- Helper: a group accepted by `u8::from_str_radix` starts with an
ASCII byte (a `+` or a hex digit), hence below 128. -/
lemma fromStrRadix16U8_first_lt_128 {x y v : Nat}
    (h : fromStrRadix16U8 [x, y] = some v) : x < 128 := by
  by_contra hx
  push_neg at hx
  have h43 : ¬ (x = 43) := by omega
  have hd : hexDigitVal x = none := by
    simp only [hexDigitVal]
    split_ifs <;> first | rfl | (exfalso; omega)
  simp [fromStrRadix16U8, h43, parseHexNat, hd] at h

/-- Helper: undoing once per committed shape empties `drawn_objects` and
moves the shapes onto `undo_stack` in reverse order, after whatever was
on the undo stack already. -/
lemma undoBody_iterate (P : List Shape) :
    ∀ (s : CanvasState) (rest : List Shape),
      s.drawn_objects = P → s.undo_stack = rest →
      (undoBody^[P.length] s).drawn_objects = [] ∧
      (undoBody^[P.length] s).undo_stack = rest ++ P.reverse := by
  induction P using List.reverseRecOn with
  | nil =>
    intro s rest hd hu
    simp only [List.length_nil, Function.iterate_zero_apply, List.reverse_nil,
      List.append_nil]
    exact ⟨hd, hu⟩
  | append_singleton l a ih =>
    intro s rest hd hu
    have hlen : (l ++ [a]).length = l.length + 1 := by simp
    rw [hlen, Function.iterate_succ_apply]
    have h1 : (undoBody s).drawn_objects = l := by
      simp [undoBody, hd, hu, List.getLast?_concat, List.dropLast_concat]
    have h2 : (undoBody s).undo_stack = rest ++ [a] := by
      simp [undoBody, hd, hu, List.getLast?_concat]
    have h := ih (undoBody s) (rest ++ [a]) h1 h2
    simpa [List.append_assoc] using h

/-- Helper: redoing once per shape in `Q` moves `Q` (stored reversed on
top of the undo stack) back onto `drawn_objects` in order. -/
lemma redoBody_iterate (Q : List Shape) :
    ∀ (s : CanvasState) (D U : List Shape),
      s.drawn_objects = D → s.undo_stack = U ++ Q.reverse →
      (redoBody^[Q.length] s).drawn_objects = D ++ Q ∧
      (redoBody^[Q.length] s).undo_stack = U := by
  induction Q with
  | nil =>
    intro s D U hd hu
    simp only [List.length_nil, Function.iterate_zero_apply]
    simpa [hd] using And.intro hd hu
  | cons q Q ih =>
    intro s D U hd hu
    rw [List.length_cons, Function.iterate_succ_apply]
    have hu' : s.undo_stack = (U ++ Q.reverse) ++ [q] := by
      rw [hu]; simp [List.reverse_cons]
    have h1 : (redoBody s).drawn_objects = D ++ [q] := by
      simp [redoBody, hd, hu', List.getLast?_concat]
    have h2 : (redoBody s).undo_stack = U ++ Q.reverse := by
      simp [redoBody, hu', List.getLast?_concat, List.dropLast_concat]
    have h := ih (redoBody s) (D ++ [q]) U h1 h2
    simpa [List.append_assoc] using h

/-- C1: committing a new shape through normal drawing does not clear the
undone stack.  Failing run: dab A at (1,1), dab B at (2,2), undo, dab C
at (3,3); the undo stack still holds B, `Vec::pop` in the redo arm
returns B, and the redo restores B — the claim requires it to return
None. -/
theorem c1_commit_keeps_stale_redo_entries :
    (run CanvasState.new
      [.mouseDown 1 1, .mouseUp 1 1, .mouseDown 2 2, .mouseUp 2 2, .undo,
       .mouseDown 3 3, .mouseUp 3 3]).undo_stack =
      [.circle 2 2 5 ⟨0, 0, 255, none⟩] ∧
    redoPopped (run CanvasState.new
      [.mouseDown 1 1, .mouseUp 1 1, .mouseDown 2 2, .mouseUp 2 2, .undo,
       .mouseDown 3 3, .mouseUp 3 3]) =
      some (.circle 2 2 5 ⟨0, 0, 255, none⟩) ∧
    (run CanvasState.new
      [.mouseDown 1 1, .mouseUp 1 1, .mouseDown 2 2, .mouseUp 2 2, .undo,
       .mouseDown 3 3, .mouseUp 3 3, .redo]).drawn_objects =
      [.circle 1 1 5 ⟨0, 0, 255, none⟩, .circle 3 3 5 ⟨0, 0, 255, none⟩,
       .circle 2 2 5 ⟨0, 0, 255, none⟩] := by
  exact ⟨rfl, rfl, rfl⟩

/-- C2: the `Msg::ChangeColor` arm calls `expect` on the parse result,
so a failing hex string panics (aborts the session) instead of being
ignored. -/
theorem c2_change_color_panics_on_parse_failure :
    (update CanvasState.new (.changeColor "#1234")).panicMsg =
      some "ERROR CONVERTING COLOR" := rfl

/-- C3 counterexample: the `SelectRectTool` and `ChangeColor` arms
return before the repaint code, so a tool switch or color change issues
no operation at all on the main surface — in particular not the full
repaint the claim requires. -/
theorem c3_tool_switch_skips_repaint :
    (update CanvasState.new .selectRectTool).mainOps = [] ∧
    (update CanvasState.new (.changeColor "#ff0000")).mainOps = [] ∧
    (update CanvasState.new .selectRectTool).mainOps ≠
      repaintOps (update CanvasState.new .selectRectTool).state := by
  refine ⟨rfl, rfl, ?_⟩
  decide

/-- The message arms that reach the repaint after the match, given the
current state (pointer-move repaints only while the mouse is pressed). -/
def reachesRepaint (s : CanvasState) : Msg → Prop
  | .mouseDown _ _ => True
  | .mouseMove _ _ => s.mouse_pressed = true
  | .mouseUp _ _ => True
  | .changeTool _ => True
  | .saveImage => True
  | .clearCanvas => True
  | .changeColor _ => False
  | .selectRectTool => False
  | .selectBrushTool => False
  | .undo => True
  | .redo => True

/-- C3 amended: every event except the tool-select and color-change
messages (which return early) and a pointer-move with the mouse up
(which is ignored) triggers a full repaint of the main surface: fill an
opaque white rectangle over the whole 500×500 surface, then render every
shape of the resulting committed list in insertion order. -/
theorem c3_repaint_pipeline (s : CanvasState) (m : Msg) (v : String)
    (h : reachesRepaint s m) :
    (update s m).mainOps =
      draw_rect 0 0 500 500 ⟨255, 255, 255, none⟩ ++
        ((update s m).state.drawn_objects.map Shape.draw).flatten ∧
    (update s .selectRectTool).mainOps = [] ∧
    (update s .selectBrushTool).mainOps = [] ∧
    (update s (.changeColor v)).mainOps = [] := by
  refine ⟨?_, rfl, rfl, ?_⟩
  · cases m with
    | mouseDown ex ey => simp [update, repaintOps]
    | mouseMove ex ey =>
      have hp : s.mouse_pressed = true := h
      simp [update, hp, repaintOps]
    | mouseUp ex ey => simp [update, repaintOps]
    | changeTool t => simp [update, repaintOps]
    | saveImage => simp [update, repaintOps]
    | clearCanvas => simp [update, repaintOps]
    | changeColor w => exact absurd h (by simp [reachesRepaint])
    | selectRectTool => exact absurd h (by simp [reachesRepaint])
    | selectBrushTool => exact absurd h (by simp [reachesRepaint])
    | undo => simp [update, repaintOps]
    | redo => simp [update, repaintOps]
  · simp only [update]
    cases from_hex_str (strBytes v) <;> rfl

/-- Witness for C3 amended at a concrete repainting event. -/
theorem c3_repaint_pipeline_witness :
    (update CanvasState.new .undo).mainOps =
      draw_rect 0 0 500 500 ⟨255, 255, 255, none⟩ ++
        ((update CanvasState.new .undo).state.drawn_objects.map Shape.draw).flatten :=
  (c3_repaint_pipeline CanvasState.new .undo "" trivial).1

/-- C4 counterexample: on the 8-byte input "112233zz" the alpha group
"zz" is not valid hex, yet parsing succeeds (with no alpha) because the
alpha parse result goes through `.ok()` — the claim requires a typed
InvalidComponent failure. -/
theorem c4_invalid_alpha_group_parses_ok :
    from_hex_str (strBytes "112233zz") = .ok ⟨17, 34, 51, none⟩ := rfl

/-- C4 amended: for an 8-byte input (behind a `#`) whose first three
2-digit groups parse as hex bytes and whose seventh byte starts a
character (as it always does in valid UTF-8, the first six bytes being
ASCII), a failing alpha group is swallowed into an absent alpha and
parsing still succeeds, while a succeeding alpha group yields that byte
divided by 255. -/
theorem c4_alpha_group_swallowed_or_normalized
    (b1 b2 b3 b4 b5 b6 b7 b8 : Nat) (r g b : Nat)
    (h1 : fromStrRadix16U8 [b1, b2] = some r)
    (h2 : fromStrRadix16U8 [b3, b4] = some g)
    (h3 : fromStrRadix16U8 [b5, b6] = some b)
    (h7 : b7 < 128 ∨ 192 ≤ b7) :
    from_hex_str (35 :: [b1, b2, b3, b4, b5, b6, b7, b8]) =
      .ok ⟨r, g, b, (fromStrRadix16U8 [b7, b8]).map fun x => (x : ℚ) / 255⟩ := by
  have hb3 : b3 < 128 := fromStrRadix16U8_first_lt_128 h2
  have hb5 : b5 < 128 := fromStrRadix16U8_first_lt_128 h3
  have hne : ¬ (b1 = 35) := by
    intro hb
    rw [hb, fromStrRadix16U8_hash] at h1
    exact Option.noConfusion h1
  have hc2 : isCharBoundary [b1, b2, b3, b4, b5, b6, b7, b8] 2 = true := by
    simp [isCharBoundary, hb3]
  have hc4 : isCharBoundary [b1, b2, b3, b4, b5, b6, b7, b8] 4 = true := by
    simp [isCharBoundary, hb5]
  have hc6 : isCharBoundary [b1, b2, b3, b4, b5, b6, b7, b8] 6 = true := by
    rcases h7 with h | h <;> simp [isCharBoundary, h]
  simp [from_hex_str, List.dropWhile, hne, h1, h2, h3, hc2, hc4, hc6]

/-- Witness for C4 amended on "#11223380": alpha is 0x80/255 = 128/255. -/
theorem c4_alpha_witness :
    from_hex_str (strBytes "#11223380") =
      .ok ⟨17, 34, 51, some ((128 : ℚ) / 255)⟩ := by
  have hs : strBytes "#11223380" = 35 :: [49, 49, 50, 50, 51, 51, 56, 48] := rfl
  have h := c4_alpha_group_swallowed_or_normalized 49 49 50 50 51 51 56 48 17 34 51
    rfl rfl rfl (Or.inl (by omega))
  have h80 : fromStrRadix16U8 [56, 48] = some 128 := rfl
  rw [hs, h, h80]
  simp

/-- C5 counterexample: a committed circle stores radius 7, but rendering
traces an arc of the hard-coded radius 5.0 starting at angle 1.0 rad —
not a disc of the stored radius drawn as a full 360° arc. -/
theorem c5_circle_ignores_stored_radius :
    Shape.draw (.circle 20 20 7 ⟨0, 0, 255, none⟩) =
      [.beginPath, .arc 20 20 5 ⟨1, 0⟩ ⟨0, 2⟩,
       .setFillStyle "rgb(0, 0, 255)", .fill] ∧
    Shape.draw (.circle 20 20 7 ⟨0, 0, 255, none⟩) ≠
      [.beginPath, .arc 20 20 7 ⟨0, 0⟩ ⟨0, 2⟩,
       .setFillStyle (Color.to_rgb_str ⟨0, 0, 255, none⟩), .fill] := by
  refine ⟨rfl, ?_⟩
  decide

/-- C5 amended: rendering a committed circle ignores the stored radius
and draws an arc of fixed radius 5.0 centered at (x, y) from angle
1.0 rad to 2π (not a full circle), filled with the color's CSS string. -/
theorem c5_circle_render_ops (x y r : ℚ) (c : Color) :
    Shape.draw (.circle x y r c) =
      [.beginPath, .arc x y 5 ⟨1, 0⟩ ⟨0, 2⟩, .setFillStyle c.to_rgb_str, .fill] :=
  rfl

/-- C6: from a state holding exactly the pushed shapes `P` with an empty
redo stack, undoing `|P|` times empties the committed list (moving `P`
reversed onto the undo stack), each subsequent redo restores the shapes
in order (after `k` redos the committed list is the first `k` shapes of
`P`), and `|P|` redos terminate with the committed list equal to `P`. -/
theorem c6_undo_redo_roundtrip (P : List Shape) (s : CanvasState)
    (hd : s.drawn_objects = P) (hu : s.undo_stack = []) :
    (undoBody^[P.length] s).drawn_objects = [] ∧
    (undoBody^[P.length] s).undo_stack = P.reverse ∧
    (∀ k, k ≤ P.length →
      (redoBody^[k] (undoBody^[P.length] s)).drawn_objects = P.take k) ∧
    (redoBody^[P.length] (undoBody^[P.length] s)).drawn_objects = P ∧
    (redoBody^[P.length] (undoBody^[P.length] s)).undo_stack = [] := by
  obtain ⟨h1, h2⟩ := undoBody_iterate P s [] hd hu
  rw [List.nil_append] at h2
  have hfull := redoBody_iterate P (undoBody^[P.length] s) [] [] h1 (by rw [h2]; rfl)
  refine ⟨h1, h2, ?_, ?_, hfull.2⟩
  · intro k hk
    have hsplit : P.reverse = (P.drop k).reverse ++ (P.take k).reverse := by
      rw [← List.reverse_append, List.take_append_drop]
    have h := redoBody_iterate (P.take k) (undoBody^[P.length] s) []
      ((P.drop k).reverse) h1 (by rw [h2, hsplit])
    rw [List.length_take, min_eq_left hk] at h
    simpa using h.1
  · simpa using hfull.1

/-- Witness for C6 at a two-shape history. -/
theorem c6_undo_redo_roundtrip_witness :
    (undoBody^[2]
      { CanvasState.new with
        drawn_objects := [.circle 1 1 5 ⟨0, 0, 255, none⟩,
                          .rect 0 0 9 9 ⟨0, 0, 255, none⟩] }).drawn_objects = [] ∧
    (redoBody^[2] (undoBody^[2]
      { CanvasState.new with
        drawn_objects := [.circle 1 1 5 ⟨0, 0, 255, none⟩,
                          .rect 0 0 9 9 ⟨0, 0, 255, none⟩] })).drawn_objects =
      [.circle 1 1 5 ⟨0, 0, 255, none⟩, .rect 0 0 9 9 ⟨0, 0, 255, none⟩] := by
  have h := c6_undo_redo_roundtrip
    [.circle 1 1 5 ⟨0, 0, 255, none⟩, .rect 0 0 9 9 ⟨0, 0, 255, none⟩]
    { CanvasState.new with
      drawn_objects := [.circle 1 1 5 ⟨0, 0, 255, none⟩,
                        .rect 0 0 9 9 ⟨0, 0, 255, none⟩] }
    rfl rfl
  exact ⟨h.1, h.2.2.2.1⟩

/-- C7: with the rectangle tool selected, pointer-down at (5,5) commits
nothing, pointer-move to (50,50) commits nothing and repaints the
preview surface with exactly the candidate rectangle 5,5→50,50 (a
full-surface clear, the tooltip fill color, the rectangle), and
pointer-up at (50,50) clears the preview surface and commits exactly one
rectangle spanning 5,5→50,50 in the primary color. -/
theorem c7_rect_gesture :
    (update (step CanvasState.new .selectRectTool) (.mouseDown 5 5)).state.drawn_objects
      = [] ∧
    (update (step (step CanvasState.new .selectRectTool) (.mouseDown 5 5))
      (.mouseMove 50 50)).state.drawn_objects = [] ∧
    (update (step (step CanvasState.new .selectRectTool) (.mouseDown 5 5))
      (.mouseMove 50 50)).previewOps =
      [.clearRect 0 0 500 500, .setFillStyle "rgba(200, 0, 255, 0.5)",
       .fillRect 5 5 (50 - 5) (50 - 5)] ∧
    (update (step (step (step CanvasState.new .selectRectTool) (.mouseDown 5 5))
      (.mouseMove 50 50)) (.mouseUp 50 50)).previewOps =
      [.clearRect 0 0 500 500] ∧
    (update (step (step (step CanvasState.new .selectRectTool) (.mouseDown 5 5))
      (.mouseMove 50 50)) (.mouseUp 50 50)).state.drawn_objects =
      [.rect 5 5 50 50 ⟨0, 0, 255, none⟩] := by
  exact ⟨rfl, rfl, rfl, rfl, rfl⟩

/-- C8: with the brush tool active and carrying the current primary
color, pointer-down at (10,10), pointer-move to (20,10) and pointer-up
commit exactly two circles, at (10,10) and (20,10), both in the primary
color; the pointer-up itself commits nothing. -/
theorem c8_brush_gesture (s : CanvasState) (sz : ℚ)
    (h : s.current_tool = .brush sz s.primary_color) :
    (step (step s (.mouseDown 10 10)) (.mouseMove 20 10)).drawn_objects =
      s.drawn_objects ++
        [.circle 10 10 sz s.primary_color, .circle 20 10 sz s.primary_color] ∧
    (step (step (step s (.mouseDown 10 10)) (.mouseMove 20 10))
      (.mouseUp 20 10)).drawn_objects =
      (step (step s (.mouseDown 10 10)) (.mouseMove 20 10)).drawn_objects := by
  constructor
  · simp [step, update, h, Tool.start_draw, Tool.draw]
  · simp [step, update, h, Tool.start_draw, Tool.draw, Tool.end_draw]

/-- Witness for C8 from the freshly constructed state. -/
theorem c8_brush_gesture_witness :
    (step (step (step CanvasState.new (.mouseDown 10 10)) (.mouseMove 20 10))
      (.mouseUp 20 10)).drawn_objects =
      [.circle 10 10 5 ⟨0, 0, 255, none⟩, .circle 20 10 5 ⟨0, 0, 255, none⟩] := by
  have h := c8_brush_gesture CanvasState.new 5 rfl
  rw [h.2, h.1]
  rfl

/-- C9: the clear arm empties both stacks, an undo right after a clear
is a no-op, and undo (resp. redo) with an empty source stack pops
nothing and leaves the state — in particular both stacks — unchanged. -/
theorem c9_clear_and_empty_stack_noops (s : CanvasState) :
    (step s .clearCanvas).drawn_objects = [] ∧
    (step s .clearCanvas).undo_stack = [] ∧
    undoBody (step s .clearCanvas) = step s .clearCanvas ∧
    (s.drawn_objects = [] → undoPopped s = none ∧ step s .undo = s) ∧
    (s.undo_stack = [] → redoPopped s = none ∧ step s .redo = s) := by
  refine ⟨rfl, rfl, rfl, ?_, ?_⟩
  · intro h
    exact ⟨by simp [undoPopped, h], by simp [step, update, undoBody, h]⟩
  · intro h
    exact ⟨by simp [redoPopped, h], by simp [step, update, redoBody, h]⟩

/-- Witness for C9 at the freshly constructed (empty-stacks) state. -/
theorem c9_clear_and_empty_stack_noops_witness :
    (step CanvasState.new .clearCanvas).drawn_objects = [] ∧
    step CanvasState.new .undo = CanvasState.new ∧
    step CanvasState.new .redo = CanvasState.new := by
  have h := c9_clear_and_empty_stack_noops CanvasState.new
  exact ⟨h.1, (h.2.2.2.1 rfl).2, (h.2.2.2.2 rfl).2⟩

/-- C10: the `MouseUp` arm never checks `mouse_pressed`, so with the
rectangle tool active a pointer-up with no gesture in progress still
commits a rectangle from the tool's stored anchor to the pointer-up
position; right after `SelectRectTool` that anchor is (0,0). -/
theorem c10_mouse_up_without_gesture (s : CanvasState) (x y ex ey : ℚ)
    (c tc : Color) (_hp : s.mouse_pressed = false)
    (ht : s.current_tool = .rectTool x y c tc) :
    (step s (.mouseUp ex ey)).drawn_objects =
      s.drawn_objects ++ [.rect x y ex ey c] ∧
    (step s .selectRectTool).current_tool =
      .rectTool 0 0 s.primary_color s.tooltip_color ∧
    (step (step s .selectRectTool) (.mouseUp ex ey)).drawn_objects =
      s.drawn_objects ++ [.rect 0 0 ex ey s.primary_color] := by
  refine ⟨?_, rfl, ?_⟩
  · simp [step, update, ht, Tool.end_draw]
  · simp [step, update, Tool.end_draw]

/-- Witness for C10: select the rectangle tool (mouse up, no gesture),
then a lone pointer-up at (30,40) commits the rectangle 0,0→30,40. -/
theorem c10_mouse_up_without_gesture_witness :
    (step (step CanvasState.new .selectRectTool) (.mouseUp 30 40)).drawn_objects =
      [.rect 0 0 30 40 ⟨0, 0, 255, none⟩] := by
  have h := c10_mouse_up_without_gesture (step CanvasState.new .selectRectTool)
    0 0 30 40 CanvasState.new.primary_color CanvasState.new.tooltip_color rfl rfl
  rw [h.1]
  rfl
